import Mathlib

/-!
Verification of the streaming FAQ gateway (`src/main.py`, `src/constants.py`).

The development shallowly embeds the parts of the program that the spec
talks about:

* the organization directory `ORG_MAPPING` and the query-context envelope
  built at `main.py` lines 242-245 / 327-330;
* the WebSocket turn loop of `websocket_endpoint` (`main.py` lines 215-307):
  parsing an inbound client message, the acknowledgement message, the
  per-event streaming of chunk/function messages, the final `complete`
  message with its fallback text, and the two `error` paths;
* the one-time component initialization `initialize_components`
  (`main.py` lines 114-153) guarded by `initialization_lock`;
* the `ENV` computation of `constants.py` lines 5-13.

Messages are modelled as the JSON objects the code sends with
`websocket.send_text(json.dumps(...))`, i.e. as association lists of
string fields produced by `encodeMsg`.
-/

namespace TypoAgent

/-- Python's `str.strip()` (no argument): drop whitespace from both ends.
Defined on the character list so the kernel can evaluate it. -/
def pyStrip (s : String) : String :=
  ⟨((s.data.dropWhile Char.isWhitespace).reverse.dropWhile Char.isWhitespace).reverse⟩

/-- Python's `str.lower()` (ASCII case folding suffices for the values the
program compares). -/
def pyLower (s : String) : String := ⟨s.data.map Char.toLower⟩

/-- The organization directory of `main.py` (lines 95-102). -/
def ORG_MAPPING : List (String × String) :=
  [("4", "GroundWorks"),
   ("5", "Method"),
   ("6", "WL Development"),
   ("7", "PatientNow"),
   ("8", "JemHR"),
   ("9", "ToursByLocal")]

/-- Lookup of a display name, `ORG_MAPPING.get(org_id)`. -/
def lookupOrg (org_id : String) : Option String :=
  (ORG_MAPPING.find? (fun p => p.1 == org_id)).map (·.2)

/-- Display name with default, from `main.py` line 232 / 324:
`ORG_MAPPING.get(org_id, "No Organization") if org_id else "No Organization"`,
applied after the empty string has been turned into `none`. -/
def orgDisplayName (org : Option String) : String :=
  match org with
  | some i => (lookupOrg i).getD "No Organization"
  | none => "No Organization"

/-- The query-context envelope (`main.py` lines 242-245 and 327-330):
`f"Organization ID: {org_id} (Organization: {org_name})\nUser Query: {query}"`
when an org id is present, else
`f"No specific organization selected\nUser Query: {query}"`. -/
def queryWithContext (query : String) (org : Option String) : String :=
  match org with
  | some oid =>
      "Organization ID: " ++ oid ++ " (Organization: " ++ orgDisplayName (some oid)
        ++ ")\nUser Query: " ++ query
  | none => "No specific organization selected\nUser Query: " ++ query

/-- One outbound WebSocket message, as built by the `json.dumps` calls of
`websocket_endpoint`. Each constructor records the `content` field (and
`org_info` for `complete`). -/
inductive WsMsg where
  | system (content : String)
  | ack (content : String)
  | chunk (content : String)
  | function (content : String)
  | complete (content : String) (org_info : String)
  | error (content : String)
deriving DecidableEq

/-- The `type` field of a message. -/
def msgType : WsMsg → String
  | .system _ => "system"
  | .ack _ => "ack"
  | .chunk _ => "chunk"
  | .function _ => "function"
  | .complete _ _ => "complete"
  | .error _ => "error"

/-- The `content` field of a message. -/
def msgContent : WsMsg → String
  | .system c => c
  | .ack c => c
  | .chunk c => c
  | .function c => c
  | .complete c _ => c
  | .error c => c

/-- The JSON object a message is serialized to, as a field association list
(exactly the keys passed to `json.dumps` in `websocket_endpoint`). -/
def encodeMsg : WsMsg → List (String × String)
  | .system c => [("type", "system"), ("content", c)]
  | .ack c => [("type", "ack"), ("content", c)]
  | .chunk c => [("type", "chunk"), ("content", c)]
  | .function c => [("type", "function"), ("content", c)]
  | .complete c oi => [("type", "complete"), ("content", c), ("org_info", oi)]
  | .error c => [("type", "error"), ("content", c)]

/-- One part of a runtime event (`google.genai` `types.Part` as the handler
duck-types it): an optional text, an optional function call (its name) and
a function-response flag. -/
structure Part where
  text : Option String := none
  function_call : Option String := none
  function_response : Bool := false
deriving DecidableEq

/-- Python truthiness of `part.text`: present and non-empty. -/
def textTruthy : Option String → Bool
  | some t => !(t == "")
  | none => false

/-- Processing of one part inside the `async for` loop
(`main.py` lines 263-282): the messages sent and the texts appended to
`response_chunks`. -/
def partMsgs (p : Part) : List WsMsg × List String :=
  if textTruthy p.text then
    ([.chunk (p.text.getD "")], [p.text.getD ""])
  else if p.function_call.isSome then
    ([.function ("🔍 Searching " ++ p.function_call.getD "" ++ "...")], [])
  else if p.function_response then
    ([.function "✓ Search completed"], [])
  else ([], [])

/-- One runtime event: `event.content.parts` when `event.content` and
`event.content.parts` are truthy, modelled as `some parts`; a content-less
event is `none`. -/
abbrev Event : Type := Option (List Part)

/-- Processing of one event (`main.py` lines 261-282): the guard
`if event.content and event.content.parts` followed by the per-part loop. -/
def eventMsgs (e : Event) : List WsMsg × List String :=
  match e with
  | none => ([], [])
  | some parts =>
      if parts.isEmpty then ([], [])
      else (parts.flatMap (fun p => (partMsgs p).1),
            parts.flatMap (fun p => (partMsgs p).2))

/-- The whole `async for event in result` loop: concatenated messages and
collected `response_chunks`. -/
def streamEvents (events : List Event) : List WsMsg × List String :=
  (events.flatMap (fun e => (eventMsgs e).1),
   events.flatMap (fun e => (eventMsgs e).2))

/-- An event that carries a single text part — how a cumulative text
snapshot from the runtime reaches the handler. -/
def mkTextEvent (s : String) : Event := some [{ text := some s }]

/-- The fallback answer substituted when the joined chunks are blank
(`main.py` lines 286-287). -/
def fallbackText : String :=
  "I couldn't find relevant information for your query. Please try rephrasing your question."

/-- An inbound client message after `json.loads`: the `query` and `org_id`
fields (absent fields are `none`, mirroring `message_data.get`). -/
structure ClientMsg where
  query : Option String := none
  org_id : Option String := none
deriving DecidableEq

/-- Normalization `if org_id == "": org_id = None` (`main.py` lines 228-229). -/
def parseOrg : Option String → Option String
  | some "" => none
  | x => x

/-- The acknowledgement text (`main.py` line 238):
`f"Searching{' in ' + org_name if org_id else ' in Global FAQ'}..."`. -/
def ackText (org : Option String) : String :=
  "Searching" ++
    (match org with
     | some _ => " in " ++ orgDisplayName org
     | none => " in Global FAQ") ++ "..."

/-- The `org_info` field of the completion message (`main.py` line 292). -/
def orgInfoText (org : Option String) : String :=
  match org with
  | some _ => "Searched in: " ++ orgDisplayName org
  | none => "Searched in: Global FAQ Database"

/-- One iteration of the `while True` loop on a well-formed JSON message
that completes without a runtime exception (`main.py` lines 218-293).
Returns the messages sent over the socket and, when the agent runtime was
invoked, the context string passed to it as the new user message
(`none` means the runtime was never called: the `continue` on a blank
query). -/
def processClientMessage (raw : ClientMsg) (events : List Event) :
    List WsMsg × Option String :=
  let query := pyStrip (raw.query.getD "")
  if query == "" then ([], none)
  else
    let org := parseOrg raw.org_id
    let ctx := queryWithContext query org
    let stream := streamEvents events
    let full := String.intercalate " " stream.2
    let full2 := if pyStrip full == "" then fallbackText else full
    (WsMsg.ack (ackText org) :: stream.1 ++ [WsMsg.complete full2 (orgInfoText org)],
     some ctx)

/-- One item received by the `while True` loop, from the transport's point
of view: a well-formed message whose turn completes (carrying the runtime
events of that turn), a message that is not valid JSON, or a well-formed
message whose turn raises inside the `try` after `events` were already
streamed, with `exn` the exception's string. -/
inductive Inbound where
  | msg (raw : ClientMsg) (events : List Event)
  | badJson
  | runtimeFailure (raw : ClientMsg) (events : List Event) (exn : String)

/-- Messages the loop body sends for one inbound item (`main.py` lines
216-307). `json.JSONDecodeError` and a generic exception are both caught
inside the loop and answered with an `error` message; the blank-query
`continue` happens before the runtime is invoked, so a runtime failure
presupposes a non-blank query. -/
def handleInbound : Inbound → List WsMsg
  | .msg raw events => (processClientMessage raw events).1
  | .badJson => [.error "Invalid message format"]
  | .runtimeFailure raw events exn =>
      let query := pyStrip (raw.query.getD "")
      if query == "" then []
      else
        let org := parseOrg raw.org_id
        WsMsg.ack (ackText org) :: (streamEvents events).1 ++
          [WsMsg.error ("Query processing failed: " ++ exn)]

/-- The `while True` loop over a finite prefix of inbound items: both
`except` arms are inside the loop, so every item is processed and the loop
continues afterwards. -/
def connectionLoop (items : List Inbound) : List WsMsg :=
  items.flatMap handleInbound

/-- Everything one connection sends (`main.py` lines 208-307): the two
`system` messages when the components were not yet initialized, then the
turn loop. -/
def connectionMessages (initNeeded : Bool) (items : List Inbound) : List WsMsg :=
  (if initNeeded then [WsMsg.system "Initializing system...", WsMsg.system "System ready!"]
   else []) ++ connectionLoop items

/-! ### Component initialization (`main.py` lines 107-153)

The module-level globals are `runner` (here: a flag), `session_id` and the
session service's store. `initialize_components` runs under
`initialization_lock`; if `runner` is already set it returns at once,
otherwise it creates one session for `app_name="faq_app"`,
`user_id="api_user"` and publishes its id in the global `session_id`. -/

/-- A session record held by the session service. -/
structure SessionRec where
  id : Nat
  app_name : String
  user_id : String
deriving DecidableEq

/-- The module-level mutable state of `main.py`. -/
structure AppState where
  runner : Bool
  session_id : Option Nat
  sessions : List SessionRec
  next_id : Nat
deriving DecidableEq

/-- Model of the session-service call
`session_service.create_session(state=..., app_name=..., user_id=...)`:
allocates a fresh id and stores the record. -/
def create_session (app_name user_id : String) (s : AppState) : Nat × AppState :=
  (s.next_id,
   { s with sessions := s.sessions ++ [⟨s.next_id, app_name, user_id⟩],
            next_id := s.next_id + 1 })

/-- Component initialization (`main.py` lines 114-153), run under the
initialization lock: early return when `runner` is set, else create the
agent/runner and the one persistent session. -/
def initialize_components (s : AppState) : AppState :=
  if s.runner then s
  else
    let created := create_session "faq_app" "api_user" s
    { created.2 with runner := true, session_id := some created.1 }

/-! ### Environment mode (`constants.py` lines 5-13) -/

/-- Model of `constants.getenv`: `os.getenv(env_var, fallback).strip()`; the
raw environment value is `none` when the variable is unset. -/
def getenvStripped (raw : Option String) (fallback : String) : String :=
  pyStrip (raw.getD fallback)

/-- The mode set `ENV_MODES = {"dev", "staging", "production"}`. -/
def ENV_MODES : List String := ["dev", "staging", "production"]

/-- The default mode, `DEFAULT_ENV = "dev"`. -/
def DEFAULT_ENV : String := "dev"

/-- The environment-mode constant of `constants.py` lines 12-13, as a
function of the raw value of the `ENV` environment variable:
`env = getenv("ENV", DEFAULT_ENV).lower(); ENV = env if env in ENV_MODES
else DEFAULT_ENV`. -/
def computeENV (raw : Option String) : String :=
  let env := pyLower (getenvStripped raw DEFAULT_ENV)
  if ENV_MODES.contains env then env else DEFAULT_ENV

end TypoAgent

/-! ### Concurrency model for the turn path

Two WebSocket connections, each processing one turn against the single
module-level `session_id`. Inside the `while True` loop of
`websocket_endpoint` the path from `receive_text` to the `complete`
message takes no lock (`initialization_lock` is only used inside
`initialize_components`, before the loop), so a connection can enter its
turn regardless of what the other connection is doing. -/

namespace TypoAgent.Turns

/-- Phase of one connection's single turn against the shared session. -/
inductive ConnPhase where
  | idle
  | active
  | done
deriving DecidableEq

/-- Joint state of two connections, both of which run their turn with
`session_id=session_id`, the one module-level global. -/
structure Sys where
  conn1 : ConnPhase
  conn2 : ConnPhase
deriving DecidableEq

/-- Interleaved small-step semantics of the two turn paths. Starting a turn
is enabled whenever the connection is idle — the source contains no
per-session acquire between `receive_text` and the runtime call, so the
other connection's phase is never consulted. -/
inductive Step : Sys → Sys → Prop
  | start1 (b : ConnPhase) : Step ⟨.idle, b⟩ ⟨.active, b⟩
  | start2 (a : ConnPhase) : Step ⟨a, .idle⟩ ⟨a, .active⟩
  | finish1 (b : ConnPhase) : Step ⟨.active, b⟩ ⟨.done, b⟩
  | finish2 (a : ConnPhase) : Step ⟨a, .active⟩ ⟨a, .done⟩

/-- Reachability from the initial state (both connections idle). -/
def Reachable (s : Sys) : Prop :=
  Relation.ReflTransGen Step ⟨.idle, .idle⟩ s

end TypoAgent.Turns

namespace TypoAgent

/-- Wire-message shape demanded by the spec (§6), written from the spec's
words for comparison with `encodeMsg`: one of
`{sender: "bot", type: "start"}`, `{sender: "bot", type: "chunk",
text: non-empty}`, `{sender: "bot", type: "end"}`. -/
def specWireShape (fields : List (String × String)) : Bool :=
  (fields.lookup "sender" == some "bot") &&
    ((fields.lookup "type" == some "start") ||
     (fields.lookup "type" == some "end") ||
     ((fields.lookup "type" == some "chunk") &&
       (match fields.lookup "text" with
        | some t => !(t == "")
        | none => false)))

/-! ## Helper lemmas -/

/-- A part only ever contributes `chunk` or `function` messages. -/
theorem partMsgs_type_mem (p : Part) :
    ∀ m ∈ (partMsgs p).1, msgType m = "chunk" ∨ msgType m = "function" := by
  intro m hm
  unfold partMsgs at hm
  split at hm
  · simp at hm; subst hm; left; rfl
  · split at hm
    · simp at hm; subst hm; right; rfl
    · split at hm
      · simp at hm; subst hm; right; rfl
      · simp at hm

/-- The event loop only ever emits `chunk` or `function` messages. -/
theorem streamEvents_type_mem (events : List Event) :
    ∀ m ∈ (streamEvents events).1, msgType m = "chunk" ∨ msgType m = "function" := by
  intro m hm
  simp only [streamEvents, List.mem_flatMap] at hm
  obtain ⟨e, _, hme⟩ := hm
  cases e with
  | none => simp [eventMsgs] at hme
  | some parts =>
      simp only [eventMsgs] at hme
      by_cases hp : parts.isEmpty
      · simp [hp] at hme
      · simp only [hp, if_neg, Bool.false_eq_true, not_false_eq_true,
          List.mem_flatMap] at hme
        obtain ⟨p, _, hmp⟩ := hme
        exact partMsgs_type_mem p m hmp

/-- No `error`-typed message comes out of the event loop. -/
theorem streamEvents_filter_error (events : List Event) :
    (streamEvents events).1.filter (fun m => msgType m == "error") = [] := by
  rw [List.filter_eq_nil_iff]
  intro m hm
  rcases streamEvents_type_mem events m hm with h | h <;> simp [h]

/-- No `complete`-typed message comes out of the event loop. -/
theorem streamEvents_filter_complete (events : List Event) :
    (streamEvents events).1.filter (fun m => msgType m == "complete") = [] := by
  rw [List.filter_eq_nil_iff]
  intro m hm
  rcases streamEvents_type_mem events m hm with h | h <;> simp [h]

/-- A non-empty org id survives the empty-string normalization. -/
theorem parseOrg_of_ne (org : String) (h : org ≠ "") :
    parseOrg (some org) = some org := by
  unfold parseOrg
  split
  · next heq => injection heq with h2; exact absurd h2 h
  · rfl

/-- Initialization always leaves the runner flag set. -/
theorem initialize_components_runner (s : AppState) :
    (initialize_components s).runner = true := by
  by_cases h : s.runner <;> simp [initialize_components, h]

end TypoAgent

namespace TypoAgent

/-! ## Claim theorems -/

/-- **C1** (code bug): on a prefix-chained sequence of cumulative text
snapshots the handler forwards every snapshot text verbatim as a chunk
(`main.py` lines 261-270), so the concatenation of emitted chunk texts is
`"SureSure, here"`, not the final snapshot `"Sure, here"`: the
exactly-once delta invariant fails at this input. -/
theorem C1_cumulative_snapshots_duplicated :
    "Sure".data.isPrefixOf "Sure, here".data = true ∧
    (streamEvents [mkTextEvent "Sure", mkTextEvent "Sure, here"]).1
      = [WsMsg.chunk "Sure", WsMsg.chunk "Sure, here"] ∧
    (streamEvents [mkTextEvent "Sure", mkTextEvent "Sure, here"]).2
      = ["Sure", "Sure, here"] ∧
    String.join (streamEvents [mkTextEvent "Sure", mkTextEvent "Sure, here"]).2
      = "SureSure, here" ∧
    "SureSure, here" ≠ "Sure, here" := by decide

/-- **C2 counterexample**: the turn for `{query: "hi"}` emits an `ack` and a
`complete` message; neither satisfies the spec's three wire shapes (no
`sender` field at all, and the `type` values lie outside
start/chunk/end). -/
theorem C2_counterexample :
    (handleInbound (.msg ⟨some "hi", none⟩ [])).map (fun m => specWireShape (encodeMsg m))
      = [false, false] ∧
    (encodeMsg (WsMsg.ack "Searching in Global FAQ...")).lookup "sender" = none := by
  decide

/-- **C2** (amended): every message the gateway sends is one of the six
actual shapes `{type ∈ {system, ack, chunk, function, complete, error},
content: string}` (plus `org_info` on `complete`); no message carries a
`sender` field, and no `start` or `end` type exists. -/
theorem C2_message_types (b : Bool) (items : List Inbound) :
    ∀ m ∈ connectionMessages b items,
      msgType m ∈ ["system", "ack", "chunk", "function", "complete", "error"] ∧
      (encodeMsg m).lookup "sender" = none := by
  intro m _
  cases m <;> refine ⟨?_, rfl⟩ <;> simp [msgType]

/-- **C2 witness**: the amended shape theorem applied to the concrete `ack`
message of a one-turn connection. -/
theorem C2_witness :
    WsMsg.ack "Searching in Global FAQ..."
        ∈ connectionMessages false [.msg ⟨some "hi", none⟩ []] ∧
    (msgType (WsMsg.ack "Searching in Global FAQ...")
        ∈ ["system", "ack", "chunk", "function", "complete", "error"] ∧
      (encodeMsg (WsMsg.ack "Searching in Global FAQ...")).lookup "sender" = none) :=
  ⟨by decide,
   C2_message_types false [.msg ⟨some "hi", none⟩ []] _ (by decide)⟩

/-- **C3 counterexample**: the request `{query: "x", org_id: "unknown-id"}`
with an org id outside the directory is not rejected: the turn runs, the
`ack` and `complete` messages are emitted and the agent runtime is invoked
with a context naming the unknown id. -/
theorem C3_counterexample :
    lookupOrg "unknown-id" = none ∧
    (processClientMessage ⟨some "x", some "unknown-id"⟩ []).2
      = some "Organization ID: unknown-id (Organization: No Organization)\nUser Query: x" ∧
    (processClientMessage ⟨some "x", some "unknown-id"⟩ []).1
      = [WsMsg.ack "Searching in No Organization...",
         WsMsg.complete fallbackText "Searched in: No Organization"] := by
  decide

/-- **C3** (amended): an unknown, non-empty org_id is not rejected; the turn
proceeds and the runtime is called with the envelope that names the unknown
id and the default display name `No Organization`. -/
theorem C3_unknown_org_not_rejected (q org : String) (events : List Event)
    (hq : pyStrip q ≠ "") (horg : org ≠ "") (h : lookupOrg org = none) :
    (processClientMessage ⟨some q, some org⟩ events).2
      = some ("Organization ID: " ++ org ++ " (Organization: "
          ++ "No Organization" ++ ")\nUser Query: " ++ pyStrip q) ∧
    (processClientMessage ⟨some q, some org⟩ events).1 ≠ [] := by
  have hq' : (pyStrip q == "") = false := by
    simp [hq]
  have hp := parseOrg_of_ne org horg
  constructor
  · simp [processClientMessage, hq', hp, queryWithContext, orgDisplayName, h]
  · simp [processClientMessage, hq', hp]

/-- **C3 witness**: the amended theorem at `{query: "x",
org_id: "unknown-id"}` with no runtime events. -/
theorem C3_witness :
    pyStrip "x" ≠ "" ∧ ("unknown-id" : String) ≠ "" ∧ lookupOrg "unknown-id" = none ∧
    ((processClientMessage ⟨some "x", some "unknown-id"⟩ []).2
        = some ("Organization ID: " ++ "unknown-id" ++ " (Organization: "
            ++ "No Organization" ++ ")\nUser Query: " ++ pyStrip "x") ∧
      (processClientMessage ⟨some "x", some "unknown-id"⟩ []).1 ≠ []) :=
  ⟨by decide, by decide, by decide,
   C3_unknown_org_not_rejected "x" "unknown-id" [] (by decide) (by decide) (by decide)⟩

end TypoAgent

namespace TypoAgent

/-- **C4 counterexample**: when the runtime raises `"boom"` after the
snapshot `"Sure, here"`, the handler answers with an `error`-typed message
whose content embeds the raw exception text verbatim, emits no `end`
marker, and the apology is not delivered as a `chunk` followed by `end`. -/
theorem C4_counterexample :
    handleInbound (.runtimeFailure ⟨some "hi", none⟩ [mkTextEvent "Sure, here"] "boom")
      = [WsMsg.ack "Searching in Global FAQ...", WsMsg.chunk "Sure, here",
         WsMsg.error ("Query processing failed: " ++ "boom")] ∧
    (handleInbound (.runtimeFailure ⟨some "hi", none⟩ [mkTextEvent "Sure, here"] "boom")).map
        msgType
      = ["ack", "chunk", "error"] := by
  decide

/-- **C4** (amended): a runtime exception is caught inside the loop; the
turn's messages are the `ack`, the chunks streamed so far and exactly one
terminal `error`-typed message whose content is the fixed prefix followed
by the raw exception text (delivered verbatim, with no `end` marker); the
connection loop then continues with the next inbound item, so the session
stays usable. -/
theorem C4_runtime_failure_behavior (raw : ClientMsg) (events : List Event) (exn : String)
    (h : pyStrip (raw.query.getD "") ≠ "") :
    handleInbound (.runtimeFailure raw events exn)
      = WsMsg.ack (ackText (parseOrg raw.org_id)) :: (streamEvents events).1
          ++ [WsMsg.error ("Query processing failed: " ++ exn)] ∧
    ((handleInbound (.runtimeFailure raw events exn)).filter
        (fun m => msgType m == "error")).length = 1 ∧
    (∀ rest, connectionLoop (Inbound.runtimeFailure raw events exn :: rest)
        = handleInbound (.runtimeFailure raw events exn) ++ connectionLoop rest) := by
  have h' : (pyStrip (raw.query.getD "") == "") = false := by simp [h]
  have heq : handleInbound (.runtimeFailure raw events exn)
      = WsMsg.ack (ackText (parseOrg raw.org_id)) :: (streamEvents events).1
          ++ [WsMsg.error ("Query processing failed: " ++ exn)] := by
    simp [handleInbound, h']
  refine ⟨heq, ?_, fun rest => by simp [connectionLoop]⟩
  rw [heq]
  simp only [List.filter_cons, List.filter_append, streamEvents_filter_error]
  rfl

/-- **C4 witness**: the amended theorem at a concrete failed turn, including
the loop continuing into a following inbound item. -/
theorem C4_witness :
    pyStrip ((ClientMsg.mk (some "hi") none).query.getD "") ≠ "" ∧
    connectionLoop (Inbound.runtimeFailure ⟨some "hi", none⟩ [] "boom" :: [Inbound.badJson])
      = handleInbound (.runtimeFailure ⟨some "hi", none⟩ [] "boom")
          ++ connectionLoop [Inbound.badJson] :=
  ⟨by decide,
   (C4_runtime_failure_behavior ⟨some "hi", none⟩ [] "boom" (by decide)).2.2 [Inbound.badJson]⟩

/-- **C5** (confirmed): the context builder is deterministic, the
known-organization envelope carries the org id and its display name, the
no-organization envelope is the fixed alternative header, the two cases
are never equal, and every output ends with the verbatim query text. -/
theorem C5_context_builder :
    (∀ q o q2 o2, q = q2 → o = o2 → queryWithContext q o = queryWithContext q2 o2) ∧
    (∀ q id name, lookupOrg id = some name →
      queryWithContext q (some id)
        = "Organization ID: " ++ id ++ " (Organization: " ++ name
            ++ ")\nUser Query: " ++ q) ∧
    (∀ q, queryWithContext q none = "No specific organization selected\nUser Query: " ++ q) ∧
    (∀ q q2 id, queryWithContext q (some id) ≠ queryWithContext q2 none) ∧
    (∀ q o, ∃ p, queryWithContext q o = p ++ q) := by
  refine ⟨?_, ?_, ?_, ?_, ?_⟩
  · intro q o q2 o2 hq ho; rw [hq, ho]
  · intro q id name h
    simp [queryWithContext, orgDisplayName, h]
  · intro q; rfl
  · intro q q2 id hcontra
    have h1 : (queryWithContext q (some id)).data.head? = some 'O' := rfl
    have h2 : (queryWithContext q2 none).data.head? = some 'N' := rfl
    rw [hcontra, h2] at h1
    simp at h1
  · intro q o
    cases o with
    | some oid => exact ⟨_, rfl⟩
    | none => exact ⟨_, rfl⟩

/-- **C5 witness**: the builder evaluated at a known organization. -/
theorem C5_witness :
    lookupOrg "4" = some "GroundWorks" ∧
    queryWithContext "How do I reset my password?" (some "4")
      = "Organization ID: " ++ "4" ++ " (Organization: " ++ "GroundWorks"
          ++ ")\nUser Query: " ++ "How do I reset my password?" :=
  ⟨by decide,
   C5_context_builder.2.1 "How do I reset my password?" "4" "GroundWorks" (by decide)⟩

/-- **C6 counterexample**: a whitespace-only query is dropped by the
`continue` with no message at all: no structured rejection is ever
surfaced to the caller. -/
theorem C6_counterexample :
    processClientMessage ⟨some "   ", some "4"⟩ [] = ([], none) := by decide

/-- **C6** (amended): a query that is empty after trimming is silently
ignored: no turn is created, the runtime is not called, and no message of
any kind is sent back. -/
theorem C6_blank_query_ignored (raw : ClientMsg) (events : List Event)
    (h : pyStrip (raw.query.getD "") = "") :
    processClientMessage raw events = ([], none) := by
  simp [processClientMessage, h]

/-- **C6 witness**: the amended theorem at a whitespace query. -/
theorem C6_witness :
    pyStrip ((ClientMsg.mk (some "   ") none).query.getD "") = "" ∧
    processClientMessage ⟨some "   ", none⟩ [] = ([], none) :=
  ⟨by decide, C6_blank_query_ignored ⟨some "   ", none⟩ [] (by decide)⟩

/-- **C7 counterexample**: a turn whose runtime produced no text emits
`ack` then `complete` — there is no `start` and no `end` message, so the
claimed start/end (or fallback-chunk/end) framing does not happen. -/
theorem C7_counterexample :
    (processClientMessage ⟨some "hi", none⟩ []).1.map msgType = ["ack", "complete"] ∧
    "end" ∉ (processClientMessage ⟨some "hi", none⟩ []).1.map msgType ∧
    "start" ∉ (processClientMessage ⟨some "hi", none⟩ []).1.map msgType := by
  decide

/-- **C7** (amended): every turn that survives parsing (non-blank query)
and completes without exception ends with exactly one `complete`-typed
message, sent last, whose content is never blank: the space-joined chunk
texts, or the fixed fallback sentence when those are all whitespace. -/
theorem C7_complete_terminates_turn (raw : ClientMsg) (events : List Event)
    (h : pyStrip (raw.query.getD "") ≠ "") :
    ∃ c oi, (processClientMessage raw events).1.getLast? = some (WsMsg.complete c oi) ∧
      ((processClientMessage raw events).1.filter
          (fun m => msgType m == "complete")).length = 1 ∧
      pyStrip c ≠ "" := by
  have h' : (pyStrip (raw.query.getD "") == "") = false := by simp [h]
  refine ⟨if pyStrip (String.intercalate " " (streamEvents events).2) == ""
            then fallbackText
            else String.intercalate " " (streamEvents events).2,
          orgInfoText (parseOrg raw.org_id), ?_, ?_, ?_⟩
  · simp only [processClientMessage, h', Bool.false_eq_true, if_false]
    rw [show ∀ (a : WsMsg) (l l2 : List WsMsg), a :: l ++ l2 = (a :: l) ++ l2 from
      fun _ _ _ => rfl]
    exact List.getLast?_concat _
  · simp only [processClientMessage, h', Bool.false_eq_true, if_false]
    simp only [List.filter_cons, List.filter_append, streamEvents_filter_complete]
    rfl
  · by_cases hb : pyStrip (String.intercalate " " (streamEvents events).2) == ""
    · simp only [hb, if_true]
      decide
    · simp only [hb, Bool.false_eq_true, if_false]
      simpa using hb

/-- **C7 witness**: the amended theorem at a turn with no runtime text. -/
theorem C7_witness :
    pyStrip ((ClientMsg.mk (some "hi") none).query.getD "") ≠ "" ∧
    (∃ c oi, (processClientMessage ⟨some "hi", none⟩ []).1.getLast?
          = some (WsMsg.complete c oi) ∧
        ((processClientMessage ⟨some "hi", none⟩ []).1.filter
            (fun m => msgType m == "complete")).length = 1 ∧
        pyStrip c ≠ "") :=
  ⟨by decide, C7_complete_terminates_turn ⟨some "hi", none⟩ [] (by decide)⟩

end TypoAgent

namespace TypoAgent

/-- **C8 counterexample**: from the initial state the interleaving in which
both connections receive a query is possible, reaching the state where
both are simultaneously mid-turn on the one shared `session_id` — the
claimed mutual exclusion (second caller suspended until the first turn
ends) does not exist in the code. -/
theorem C8_counterexample :
    Turns.Reachable ⟨Turns.ConnPhase.active, Turns.ConnPhase.active⟩ :=
  Relation.ReflTransGen.tail
    (Relation.ReflTransGen.single (Turns.Step.start1 Turns.ConnPhase.idle))
    (Turns.Step.start2 Turns.ConnPhase.active)

/-- **C8** (amended): there is no per-session turn serialization at all: a
connection that has not finished can always take its next step — starting
or finishing its turn — whatever the other connection is doing, so no
caller ever suspends waiting for a lease (and, by the counterexample, both
can be mid-turn on the shared session at once). -/
theorem C8_no_blocking (s : Turns.Sys) :
    (s.conn1 ≠ Turns.ConnPhase.done → ∃ s2, Turns.Step s s2) ∧
    (s.conn2 ≠ Turns.ConnPhase.done → ∃ s2, Turns.Step s s2) := by
  obtain ⟨c1, c2⟩ := s
  constructor
  · intro h
    cases c1 with
    | idle => exact ⟨_, Turns.Step.start1 c2⟩
    | active => exact ⟨_, Turns.Step.finish1 c2⟩
    | done => exact absurd rfl h
  · intro h
    cases c2 with
    | idle => exact ⟨_, Turns.Step.start2 c1⟩
    | active => exact ⟨_, Turns.Step.finish2 c1⟩
    | done => exact absurd rfl h

/-- **C8 witness**: even while connection two is mid-turn, connection one
can start its own turn on the same session. -/
theorem C8_witness :
    (Turns.Sys.mk Turns.ConnPhase.idle Turns.ConnPhase.active).conn1
        ≠ Turns.ConnPhase.done ∧
    (∃ s2, Turns.Step ⟨Turns.ConnPhase.idle, Turns.ConnPhase.active⟩ s2) :=
  ⟨by decide,
   (C8_no_blocking ⟨Turns.ConnPhase.idle, Turns.ConnPhase.active⟩).1 (by decide)⟩

/-- **C9** (confirmed): component initialization is idempotent — a second
call returns the very same `session_id` (indeed the whole state is fixed
once `runner` is set, so the id is immutable), and the session whose id is
published was created for `app_name="faq_app"`, `user_id="api_user"`, never
for another user. -/
theorem C9_session_resolution :
    (∀ s : AppState,
      initialize_components (initialize_components s) = initialize_components s) ∧
    (∀ s : AppState,
      (initialize_components (initialize_components s)).session_id
        = (initialize_components s).session_id) ∧
    (∀ s : AppState, s.runner = true → initialize_components s = s) ∧
    (∀ s : AppState, s.runner = false →
      ∃ r : SessionRec, r ∈ (initialize_components s).sessions ∧
        (initialize_components s).session_id = some r.id ∧
        r.app_name = "faq_app" ∧ r.user_id = "api_user") := by
  have hfix : ∀ s : AppState, s.runner = true → initialize_components s = s := by
    intro s h
    simp [initialize_components, h]
  have hidem : ∀ s : AppState,
      initialize_components (initialize_components s) = initialize_components s :=
    fun s => hfix _ (initialize_components_runner s)
  refine ⟨hidem, fun s => by rw [hidem s], hfix, ?_⟩
  intro s h
  refine ⟨⟨s.next_id, "faq_app", "api_user"⟩, ?_, ?_, rfl, rfl⟩
  · simp [initialize_components, h, create_session]
  · simp [initialize_components, h, create_session]

/-- **C9 witness**: the idempotence and ownership facts evaluated at a
fresh state. -/
theorem C9_witness :
    (AppState.mk false none [] 0).runner = false ∧
    (∃ r : SessionRec, r ∈ (initialize_components ⟨false, none, [], 0⟩).sessions ∧
      (initialize_components ⟨false, none, [], 0⟩).session_id = some r.id ∧
      r.app_name = "faq_app" ∧ r.user_id = "api_user") :=
  ⟨rfl, C9_session_resolution.2.2.2 ⟨false, none, [], 0⟩ rfl⟩

/-- **C10 counterexample**: for the environment value `" Production "` the
lowercased value `" production "` is not in the mode set, so the claim
demands `"dev"`; the code strips whitespace first and yields
`"production"`. -/
theorem C10_counterexample :
    computeENV (some " Production ") = "production" ∧
    ENV_MODES.contains (pyLower " Production ") = false ∧
    ("production" : String) ≠ "dev" := by decide

/-- **C10** (amended): the environment-mode constant is always a member of
`{dev, staging, production}`; it equals the lowercased, whitespace-trimmed
value of `ENV` when that is in the set, and `"dev"` otherwise (in
particular when `ENV` is unset). -/
theorem C10_env_mode :
    (∀ raw : Option String, ENV_MODES.contains (computeENV raw) = true) ∧
    (∀ v, ENV_MODES.contains (pyLower (pyStrip v)) = true →
      computeENV (some v) = pyLower (pyStrip v)) ∧
    (∀ v, ENV_MODES.contains (pyLower (pyStrip v)) = false →
      computeENV (some v) = "dev") ∧
    computeENV none = "dev" := by
  refine ⟨?_, ?_, ?_, by decide⟩
  · intro raw
    show ENV_MODES.contains
        (if ENV_MODES.contains (pyLower (getenvStripped raw DEFAULT_ENV)) = true
         then pyLower (getenvStripped raw DEFAULT_ENV) else DEFAULT_ENV) = true
    by_cases hc : ENV_MODES.contains (pyLower (getenvStripped raw DEFAULT_ENV)) = true
    · rw [if_pos hc]; exact hc
    · rw [if_neg hc]; decide
  · intro v hv
    show (if ENV_MODES.contains (pyLower (getenvStripped (some v) DEFAULT_ENV)) = true
          then pyLower (getenvStripped (some v) DEFAULT_ENV) else DEFAULT_ENV)
        = pyLower (pyStrip v)
    rw [show getenvStripped (some v) DEFAULT_ENV = pyStrip v from rfl, if_pos hv]
  · intro v hv
    show (if ENV_MODES.contains (pyLower (getenvStripped (some v) DEFAULT_ENV)) = true
          then pyLower (getenvStripped (some v) DEFAULT_ENV) else DEFAULT_ENV)
        = "dev"
    rw [show getenvStripped (some v) DEFAULT_ENV = pyStrip v from rfl,
      if_neg (by rw [hv]; exact Bool.false_ne_true)]
    rfl

/-- **C10 witness**: the amended theorem at `ENV="STAGING"`. -/
theorem C10_witness :
    ENV_MODES.contains (pyLower (pyStrip "STAGING")) = true ∧
    computeENV (some "STAGING") = pyLower (pyStrip "STAGING") :=
  ⟨by decide, C10_env_mode.2.1 "STAGING" (by decide)⟩

end TypoAgent
